import Mathlib

/-!
Verification of the RISC-V AIA interrupt-controller subsystem
(APLIC engine, IMSIC engine, AIA manager) against its specification.

The development is a shallow embedding of the driver sources:
  - intc_imsic.c   (IMSIC engine)
  - intc_aplic.c   (APLIC engine)
  - intc_aia.c     (AIA manager)

Machine integers are modelled as Nat with explicit `% 2^32` where uint32
overflow matters.  Memory-mapped registers are modelled as explicit state:
plain read/write registers as stored words, and the APLIC SETIE/CLRIE and
SETIP set/clear register pairs with their RISC-V AIA hardware semantics
(a write of v to SETIE sets the enable bits of v; a write of v to CLRIE
clears them and CLRIE reads back as zero).  The device-discovery plumbing
is modelled by presence flags, and the software ISR dispatch table by an
environment function eid -> registered-or-not, matching the spec's
external-collaborator contract `resolve_handler`.
-/

/-- Errno value EINVAL (invalid argument), as used by the drivers. -/
def EINVAL : Int := 22

/-- Errno value ENOTSUP (operation not supported). -/
def ENOTSUP : Int := 134

/-- Errno value ENODEV (no such device). -/
def ENODEV : Int := 19

/-- C UINT_MAX; the APLIC driver uses it as the no-interrupt sentinel. -/
def UINT_MAX : Nat := 4294967295

/-- All-ones 32-bit word: the value of a C uint32 bitwise-not of 0, so that
a C expression `x & ~m` on uint32 is modelled as `x &&& (mask32 ^^^ m)`. -/
def mask32 : Nat := 4294967295

/-- The C BIT(k) macro: a word with only bit k set. -/
def BIT (k : Nat) : Nat := 1 <<< k

/-- Pointwise update of a table modelled as a function. -/
def updFn {α : Type} (f : Nat → α) (i : Nat) (v : α) : Nat → α :=
  fun j => if j = i then v else f j

theorem updFn_same {α : Type} (f : Nat → α) (i : Nat) (v : α) : updFn f i v i = v := by
  simp [updFn]

theorem updFn_other {α : Type} (f : Nat → α) (i j : Nat) (v : α) (h : j ≠ i) :
    updFn f i v j = f j := by
  simp [updFn, h]

/-! ### Bit-manipulation helper lemmas -/

theorem BIT_eq_two_pow (k : Nat) : BIT k = 2 ^ k := Nat.one_shiftLeft k

theorem land_BIT_ne_zero (x k : Nat) : (x &&& BIT k ≠ 0) ↔ x.testBit k = true := by
  rw [BIT_eq_two_pow, Nat.and_two_pow]
  cases h : x.testBit k
  · simp
  · simp [(Nat.two_pow_pos k).ne']

theorem testBit_or_BIT (x k j : Nat) :
    (x ||| BIT k).testBit j = (x.testBit j || decide (k = j)) := by
  rw [Nat.testBit_lor, BIT_eq_two_pow, Nat.testBit_two_pow]

theorem testBit_and_not_BIT (x k j : Nat) :
    (x &&& (mask32 ^^^ BIT k)).testBit j
      = (x.testBit j && (decide (j < 32) ^^ decide (k = j))) := by
  have hm : mask32 = 2 ^ 32 - 1 := by norm_num [mask32]
  rw [Nat.testBit_land, Nat.testBit_xor, BIT_eq_two_pow, Nat.testBit_two_pow, hm,
      Nat.testBit_two_pow_sub_one]

theorem and31_eq_mod (x : Nat) : x &&& 31 = x % 32 := by
  have h := Nat.and_pow_two_sub_one_eq_mod x 5
  norm_num at h
  exact h

theorem shiftRight5_eq_div (x : Nat) : x >>> 5 = x / 32 := by
  rw [Nat.shiftRight_eq_div_pow]

/-- Low-three-bits round trip: storing a value `t < 8` into the low three
bits of a 32-bit word and reading the low three bits back yields `t`. -/
theorem low3_roundtrip (x t : Nat) (ht : t < 8) :
    ((x &&& (mask32 ^^^ 7)) ||| t) &&& 7 = t := by
  apply Nat.eq_of_testBit_eq
  intro j
  have h7 : (7 : Nat) = 2 ^ 3 - 1 := by norm_num
  have hm : mask32 = 2 ^ 32 - 1 := by norm_num [mask32]
  rw [Nat.testBit_land, Nat.testBit_lor, Nat.testBit_land, Nat.testBit_xor, hm, h7,
      Nat.testBit_two_pow_sub_one, Nat.testBit_two_pow_sub_one]
  by_cases hj : j < 3
  · have hj32 : j < 32 := by omega
    simp [hj, hj32]
  · have hle : (8 : Nat) ≤ 2 ^ j := by
      calc (8 : Nat) = 2 ^ 3 := by norm_num
      _ ≤ 2 ^ j := Nat.pow_le_pow_right (by norm_num) (by omega)
    have ht' : t.testBit j = false := Nat.testBit_eq_false_of_lt (lt_of_lt_of_le ht hle)
    simp [hj, ht']

/-! ## IMSIC engine (intc_imsic.c)

Per-hart MSI receiver: two 32-bit enable words and two 32-bit pending words
covering EIDs 0..63, a delivery mode, a threshold, and five statistics
counters.  The model instantiates the device little-endian, so
`imsic_write_be` is a plain 32-bit store. -/

/-- IMSIC register byte offsets (intc_imsic.c). -/
def IMSIC_EIDELIVERY : Nat := 0x70

def IMSIC_EITHRESHOLD : Nat := 0x74

def IMSIC_EIP0 : Nat := 0x80

def IMSIC_EIE0 : Nat := 0xc0

def IMSIC_MMIO_PAGE_BE_OFFSET : Nat := 0x100

def IMSIC_EIP0_BE : Nat := IMSIC_EIP0 + IMSIC_MMIO_PAGE_BE_OFFSET

def IMSIC_EIE0_BE : Nat := IMSIC_EIE0 + IMSIC_MMIO_PAGE_BE_OFFSET

/-- IMSIC delivery-mode encodings, shared by the register field and the
`riscv_imsic_delivery_mode` enum: Off = 0, MSI = 1, ID = 2, Virtual = 3. -/
def IMSIC_EIDELIVERY_MODE_OFF : Nat := 0

def IMSIC_EIDELIVERY_MODE_MSI : Nat := 1

def IMSIC_EIDELIVERY_MODE_ID : Nat := 2

def IMSIC_EIDELIVERY_MODE_VIRTUAL : Nat := 3

/-- struct imsic_config (device-tree constants; big_endian is false in the
QEMU configuration this repository targets). -/
structure imsic_config where
  base : Nat
  hart_id : Nat
  guest_id : Nat
  max_eid : Nat
  max_prio : Nat
  big_endian : Bool

/-- struct imsic_data: the IMSIC driver's software state. The two C arrays
eie_mask[2] and eip_pending[2] are split into named word fields. -/
structure imsic_data where
  eie_mask0 : Nat
  eie_mask1 : Nat
  eip_pending0 : Nat
  eip_pending1 : Nat
  eithreshold : Nat
  delivery_mode : Nat
  total_interrupts : Nat
  msi_interrupts : Nat
  id_interrupts : Nat
  virtual_interrupts : Nat
  threshold_rejected : Nat

/-- An IMSIC device instance: configuration, driver data, and the MMIO
window modelled as a word store keyed by byte address. -/
structure ImsicDev where
  config : imsic_config
  data : imsic_data
  hw : Nat → Nat

/-- data->eie_mask[i] -/
def imsic_eie_word (d : imsic_data) (i : Nat) : Nat :=
  if i = 0 then d.eie_mask0 else d.eie_mask1

/-- data->eie_mask[i] = v -/
def imsic_set_eie_word (d : imsic_data) (i v : Nat) : imsic_data :=
  if i = 0 then {d with eie_mask0 := v} else {d with eie_mask1 := v}

/-- data->eip_pending[i] -/
def imsic_eip_word (d : imsic_data) (i : Nat) : Nat :=
  if i = 0 then d.eip_pending0 else d.eip_pending1

/-- data->eip_pending[i] = v -/
def imsic_set_eip_word (d : imsic_data) (i v : Nat) : imsic_data :=
  if i = 0 then {d with eip_pending0 := v} else {d with eip_pending1 := v}

/-- imsic_write: raw 32-bit MMIO store. -/
def imsic_write (dev : ImsicDev) (addr v : Nat) : ImsicDev :=
  {dev with hw := updFn dev.hw addr v}

/-- Byte-swap of a 32-bit word (__builtin_bswap32). -/
def bswap32 (x : Nat) : Nat :=
  ((x % 256) <<< 24) ||| (((x >>> 8) % 256) <<< 16) |||
    (((x >>> 16) % 256) <<< 8) ||| ((x >>> 24) % 256)

/-- imsic_write_be: endianness-aware store. -/
def imsic_write_be (dev : ImsicDev) (addr v : Nat) : ImsicDev :=
  if dev.config.big_endian then imsic_write dev addr (bswap32 v)
  else imsic_write dev addr v

/-- get_eie_addr: EIDs 0-31 use EIE0, EIDs 32-63 use EIE0_BE
(as written in the source). -/
def get_eie_addr (dev : ImsicDev) (eid : Nat) : Nat :=
  if eid < 32 then dev.config.base + IMSIC_EIE0 else dev.config.base + IMSIC_EIE0_BE

/-- get_eip_addr: EIDs 0-31 use EIP0, EIDs 32-63 use EIP0_BE. -/
def get_eip_addr (dev : ImsicDev) (eid : Nat) : Nat :=
  if eid < 32 then dev.config.base + IMSIC_EIP0 else dev.config.base + IMSIC_EIP0_BE

/-- imsic_irq_enable_internal: set the enable-mask bit for eid and write
the updated word to the hardware enable register. -/
def imsic_irq_enable_internal (dev : ImsicDev) (eid : Nat) : ImsicDev :=
  let mask_index := eid / 32
  let bit_mask := BIT (eid % 32)
  let d := imsic_set_eie_word dev.data mask_index
    (imsic_eie_word dev.data mask_index ||| bit_mask)
  let dev' := {dev with data := d}
  imsic_write_be dev' (get_eie_addr dev' eid) (imsic_eie_word d mask_index)

/-- imsic_irq_disable_internal: clear the enable-mask bit for eid and write
the updated word to the hardware enable register. -/
def imsic_irq_disable_internal (dev : ImsicDev) (eid : Nat) : ImsicDev :=
  let mask_index := eid / 32
  let bit_mask := BIT (eid % 32)
  let d := imsic_set_eie_word dev.data mask_index
    (imsic_eie_word dev.data mask_index &&& (mask32 ^^^ bit_mask))
  let dev' := {dev with data := d}
  imsic_write_be dev' (get_eie_addr dev' eid) (imsic_eie_word d mask_index)

/-- imsic_irq_set_pending_internal. -/
def imsic_irq_set_pending_internal (dev : ImsicDev) (eid : Nat) : ImsicDev :=
  let mask_index := eid / 32
  let bit_mask := BIT (eid % 32)
  let d := imsic_set_eip_word dev.data mask_index
    (imsic_eip_word dev.data mask_index ||| bit_mask)
  let dev' := {dev with data := d}
  imsic_write_be dev' (get_eip_addr dev' eid) (imsic_eip_word d mask_index)

/-- imsic_irq_clear_pending_internal. -/
def imsic_irq_clear_pending_internal (dev : ImsicDev) (eid : Nat) : ImsicDev :=
  let mask_index := eid / 32
  let bit_mask := BIT (eid % 32)
  let d := imsic_set_eip_word dev.data mask_index
    (imsic_eip_word dev.data mask_index &&& (mask32 ^^^ bit_mask))
  let dev' := {dev with data := d}
  imsic_write_be dev' (get_eip_addr dev' eid) (imsic_eip_word d mask_index)

/-- riscv_imsic_irq_enable: public wrapper, silently ignores eid > 63.
The model assumes the device was discovered (dev != NULL). -/
def riscv_imsic_irq_enable (dev : ImsicDev) (eid : Nat) : ImsicDev :=
  if eid ≤ 63 then imsic_irq_enable_internal dev eid else dev

/-- riscv_imsic_irq_disable: public wrapper, silently ignores eid > 63. -/
def riscv_imsic_irq_disable (dev : ImsicDev) (eid : Nat) : ImsicDev :=
  if eid ≤ 63 then imsic_irq_disable_internal dev eid else dev

/-- riscv_imsic_irq_set_pending: public wrapper. -/
def riscv_imsic_irq_set_pending (dev : ImsicDev) (eid : Nat) : ImsicDev :=
  if eid ≤ 63 then imsic_irq_set_pending_internal dev eid else dev

/-- riscv_imsic_irq_clear_pending: public wrapper. -/
def riscv_imsic_irq_clear_pending (dev : ImsicDev) (eid : Nat) : ImsicDev :=
  if eid ≤ 63 then imsic_irq_clear_pending_internal dev eid else dev

/-- riscv_imsic_irq_is_enabled: -EINVAL for eid > 63, else 1/0 from the
software enable mask. -/
def riscv_imsic_irq_is_enabled (dev : ImsicDev) (eid : Nat) : Int :=
  if eid > 63 then -EINVAL
  else if imsic_eie_word dev.data (eid / 32) &&& BIT (eid % 32) ≠ 0 then 1 else 0

/-- riscv_imsic_get_delivery_mode (device present). -/
def riscv_imsic_get_delivery_mode (dev : ImsicDev) : Nat :=
  dev.data.delivery_mode

/-- riscv_imsic_get_threshold (device present). -/
def riscv_imsic_get_threshold (dev : ImsicDev) : Nat :=
  dev.data.eithreshold

/-- struct riscv_imsic_stats. -/
structure riscv_imsic_stats where
  total_interrupts : Nat
  msi_interrupts : Nat
  id_interrupts : Nat
  virtual_interrupts : Nat
  threshold_rejected : Nat

/-- riscv_imsic_get_stats: locked snapshot of the five counters. -/
def riscv_imsic_get_stats (dev : ImsicDev) : riscv_imsic_stats :=
  { total_interrupts := dev.data.total_interrupts
    msi_interrupts := dev.data.msi_interrupts
    id_interrupts := dev.data.id_interrupts
    virtual_interrupts := dev.data.virtual_interrupts
    threshold_rejected := dev.data.threshold_rejected }

/-- riscv_imsic_reset_stats: zero the five counters. -/
def riscv_imsic_reset_stats (dev : ImsicDev) : ImsicDev :=
  {dev with data := {dev.data with
    total_interrupts := 0
    msi_interrupts := 0
    id_interrupts := 0
    virtual_interrupts := 0
    threshold_rejected := 0}}

/-- The software ISR dispatch table, an external collaborator: the spec's
`resolve_handler`. `num_irqs` is CONFIG_NUM_IRQS; `isr_registered eid`
says whether _sw_isr_table[eid].isr is non-NULL. -/
structure IsrEnv where
  num_irqs : Nat
  isr_registered : Nat → Bool

/-- Tail of imsic_handle_single_interrupt, after the delivery-mode switch:
clear the pending bit, bump total_interrupts, and bump threshold_rejected
when eid is below the current threshold.  The Bool records whether a
registered handler was invoked in the switch. -/
def imsic_handle_finish (devInv : ImsicDev × Bool) (eid : Nat) : ImsicDev × Bool :=
  let dev1 := riscv_imsic_irq_clear_pending devInv.1 eid
  let dev2 := {dev1 with data :=
    {dev1.data with total_interrupts := dev1.data.total_interrupts + 1}}
  let current_threshold := riscv_imsic_get_threshold dev2
  let dev3 :=
    if eid < current_threshold then
      {dev2 with data :=
        {dev2.data with threshold_rejected := dev2.data.threshold_rejected + 1}}
    else dev2
  (dev3, devInv.2)

/-- imsic_handle_single_interrupt: the IMSIC side of the shared dispatcher
(the spec's `dispatch_one`).  Returns the new device state and whether a
registered handler was invoked.  With delivery mode Off (or out of range)
the function returns early: no handler call, no pending clear, no counter
update.  In each live mode the handler is invoked (and the mode counter
bumped) when the ISR table has an entry for eid; the threshold is only
consulted afterwards, for the threshold_rejected statistic. -/
def imsic_handle_single_interrupt (env : IsrEnv) (dev : ImsicDev) (eid : Nat) :
    ImsicDev × Bool :=
  if riscv_imsic_irq_is_enabled dev eid ≤ 0 then (dev, false)
  else
    match riscv_imsic_get_delivery_mode dev with
    | 1 =>
      imsic_handle_finish
        (if eid < env.num_irqs then
          if env.isr_registered eid then
            ({dev with data :=
              {dev.data with msi_interrupts := dev.data.msi_interrupts + 1}}, true)
          else (dev, false)
        else (dev, false)) eid
    | 2 =>
      imsic_handle_finish
        (if eid < env.num_irqs then
          if env.isr_registered eid then
            ({dev with data :=
              {dev.data with id_interrupts := dev.data.id_interrupts + 1}}, true)
          else (dev, false)
        else (dev, false)) eid
    | 3 =>
      imsic_handle_finish
        (if eid < env.num_irqs then
          if env.isr_registered eid then
            ({dev with data :=
              {dev.data with virtual_interrupts := dev.data.virtual_interrupts + 1}}, true)
          else (dev, false)
        else (dev, false)) eid
    | _ => (dev, false)

/-! ## APLIC engine (intc_aplic.c)

Per-source configuration registers, interrupt-enable and pending bit arrays,
the TARGETCFG region, per-hart IDC TOPI registers, and the driver's software
state (per-IRQ info table, per-hart thresholds, MSI-mode flag, statistics).

Hardware semantics of the write-1-to-set / write-1-to-clear register pairs
(RISC-V AIA spec): a write of v to a SETIE/SETIP word ORs v into the
enable/pending state and a read returns that state; a write of v to a
CLRIE word clears the bits of v, and CLRIE reads back as zero. -/

/-- APLIC trigger-type encodings (enum aplic_trigger_type): edge-rising 4,
edge-falling 5, level-high 6, level-low 7.  These coincide with the
SOURCECFG source-mode field values. -/
def APLIC_TRIGGER_EDGE_RISING : Nat := 4

def APLIC_TRIGGER_EDGE_FALLING : Nat := 5

def APLIC_TRIGGER_LEVEL_HIGH : Nat := 6

def APLIC_TRIGGER_LEVEL_LOW : Nat := 7

/-- SOURCECFG source-mode mask (low three bits). -/
def APLIC_SOURCECFG_SM_MASK : Nat := 7

/-- IDC TOPI interrupt-id field mask (bits 9:0). -/
def APLIC_IDC_TOPI_ID_MASK : Nat := 0x3FF

/-- struct aplic_config: nr_irqs is the number of supported sources
(the spec's source_count); max_harts is CONFIG_MP_MAX_NUM_CPUS. -/
structure aplic_config where
  nr_irqs : Nat
  max_harts : Nat

/-- struct aplic_irq_info: per-IRQ statistics and configuration mirror. -/
structure aplic_irq_info where
  count : Nat
  last_cpu : Nat
  affinity_mask : Nat
  trigger_type : Nat
  priority : Nat
  enabled : Bool

/-- The APLIC hardware state visible through the MMIO window:
sourcecfg is indexed by IRQ; ie and ip are the enable/pending bit arrays,
indexed by 32-bit word; target is the TARGETCFG region indexed by 32-bit
word (the per-hart threshold register of hart h is word h + 4);
topi is the per-hart IDC TOPI register value presented by the hardware. -/
structure AplicHw where
  domaincfg : Nat
  sourcecfg : Nat → Nat
  ie : Nat → Nat
  ip : Nat → Nat
  target : Nat → Nat
  topi : Nat → Nat

/-- struct aplic_data: the APLIC driver's software state. -/
structure aplic_data where
  irq_info : Nat → aplic_irq_info
  total_interrupts : Nat
  hart_thresholds : Nat → Nat
  msi_mode_enabled : Bool
  msi_base_eid : Nat
  msi_interrupts_sent : Nat
  direct_interrupts : Nat

/-- An APLIC device instance. -/
structure AplicDev where
  config : aplic_config
  data : aplic_data
  hw : AplicHw

/-- local_irq_to_reg_index: irq >> LOG2(32). -/
def local_irq_to_reg_index (irq : Nat) : Nat := irq >>> 5

/-- Read of a SETIE word: returns the enable state (AIA semantics). -/
def aplic_setie_read (hw : AplicHw) (w : Nat) : Nat := hw.ie w

/-- Write of v to a SETIE word: sets the enable bits of v. -/
def aplic_setie_write (hw : AplicHw) (w v : Nat) : AplicHw :=
  {hw with ie := updFn hw.ie w (hw.ie w ||| v)}

/-- Read of a CLRIE word: reads back as zero (AIA semantics). -/
def aplic_clrie_read (_hw : AplicHw) (_w : Nat) : Nat := 0

/-- Write of v to a CLRIE word: clears the enable bits of v. -/
def aplic_clrie_write (hw : AplicHw) (w v : Nat) : AplicHw :=
  {hw with ie := updFn hw.ie w (hw.ie w &&& (mask32 ^^^ v))}

/-- Read of a SETIP word: returns the pending state. -/
def aplic_setip_read (hw : AplicHw) (w : Nat) : Nat := hw.ip w

/-- Write of v to a SETIP word: sets the pending bits of v. -/
def aplic_setip_write (hw : AplicHw) (w v : Nat) : AplicHw :=
  {hw with ip := updFn hw.ip w (hw.ip w ||| v)}

/-- aplic_irq_enable_internal: read the SETIE word for irq, OR in the bit,
write it back.  No bounds check on irq. -/
def aplic_irq_enable_internal (dev : AplicDev) (irq : Nat) : AplicDev :=
  let w := local_irq_to_reg_index irq
  let bit_mask := BIT (irq &&& 31)
  let current_setie := aplic_setie_read dev.hw w
  {dev with hw := aplic_setie_write dev.hw w (current_setie ||| bit_mask)}

/-- aplic_irq_disable_internal: read the CLRIE word (zero), OR in the bit,
write it back, which clears that enable bit.  No bounds check on irq. -/
def aplic_irq_disable_internal (dev : AplicDev) (irq : Nat) : AplicDev :=
  let w := local_irq_to_reg_index irq
  let bit_mask := BIT (irq &&& 31)
  let current_clrie := aplic_clrie_read dev.hw w
  {dev with hw := aplic_clrie_write dev.hw w (current_clrie ||| bit_mask)}

/-- aplic_irq_is_enabled_internal: read the SETIE word for irq and test the
bit.  Performed identically in Direct and MSI mode; there is no MSI-mode
special case in the source. -/
def aplic_irq_is_enabled_internal (dev : AplicDev) (irq : Nat) : Int :=
  let w := local_irq_to_reg_index irq
  let bit_mask := BIT (irq &&& 31)
  if aplic_setie_read dev.hw w &&& bit_mask ≠ 0 then 1 else 0

/-- riscv_aplic_irq_enable: hardware enable write (unconditionally), then
mirror data->irq_info[irq].enabled = true only when 0 < irq < 1024. -/
def riscv_aplic_irq_enable (dev : AplicDev) (irq : Nat) : AplicDev :=
  let dev' := aplic_irq_enable_internal dev irq
  if 0 < irq ∧ irq < 1024 then
    {dev' with data := {dev'.data with
      irq_info := updFn dev'.data.irq_info irq
        {dev'.data.irq_info irq with enabled := true}}}
  else dev'

/-- riscv_aplic_irq_disable: hardware disable write (unconditionally), then
mirror data->irq_info[irq].enabled = false only when 0 < irq < 1024. -/
def riscv_aplic_irq_disable (dev : AplicDev) (irq : Nat) : AplicDev :=
  let dev' := aplic_irq_disable_internal dev irq
  if 0 < irq ∧ irq < 1024 then
    {dev' with data := {dev'.data with
      irq_info := updFn dev'.data.irq_info irq
        {dev'.data.irq_info irq with enabled := false}}}
  else dev'

/-- riscv_aplic_irq_is_enabled (device present). -/
def riscv_aplic_irq_is_enabled (dev : AplicDev) (irq : Nat) : Int :=
  aplic_irq_is_enabled_internal dev irq

/-- aplic_irq_set_trigger_type_internal: -EINVAL when irq = 0, irq out of
range, or the type is not one of the four valid trigger encodings;
otherwise replace the SOURCECFG source-mode field and mirror the type in
irq_info. -/
def aplic_irq_set_trigger_type_internal (dev : AplicDev) (irq ty : Nat) :
    AplicDev × Int :=
  if irq = 0 ∨ irq ≥ dev.config.nr_irqs then (dev, -EINVAL)
  else if ty = APLIC_TRIGGER_EDGE_RISING ∨ ty = APLIC_TRIGGER_EDGE_FALLING ∨
      ty = APLIC_TRIGGER_LEVEL_HIGH ∨ ty = APLIC_TRIGGER_LEVEL_LOW then
    let sourcecfg_val := dev.hw.sourcecfg irq
    let sourcecfg_val' := (sourcecfg_val &&& (mask32 ^^^ APLIC_SOURCECFG_SM_MASK)) ||| ty
    let dev' := {dev with hw :=
      {dev.hw with sourcecfg := updFn dev.hw.sourcecfg irq sourcecfg_val'}}
    let dev'' := {dev' with data := {dev'.data with
      irq_info := updFn dev'.data.irq_info irq
        {dev'.data.irq_info irq with trigger_type := ty}}}
    (dev'', 0)
  else (dev, -EINVAL)

/-- aplic_irq_get_trigger_type_internal: -EINVAL on the same bounds,
otherwise the SOURCECFG source-mode field. -/
def aplic_irq_get_trigger_type_internal (dev : AplicDev) (irq : Nat) : Int :=
  if irq = 0 ∨ irq ≥ dev.config.nr_irqs then -EINVAL
  else Int.ofNat (dev.hw.sourcecfg irq &&& APLIC_SOURCECFG_SM_MASK)

/-- aplic_hart_set_threshold_internal: -EINVAL when hart_id out of range or
threshold > 255; otherwise write the hart's IDC threshold register (word
hart_id + 4 of the TARGETCFG region) and store the value. -/
def aplic_hart_set_threshold_internal (dev : AplicDev) (hart_id threshold : Nat) :
    AplicDev × Int :=
  if hart_id ≥ dev.config.max_harts then (dev, -EINVAL)
  else if threshold > 255 then (dev, -EINVAL)
  else
    let dev' := {dev with hw :=
      {dev.hw with target := updFn dev.hw.target (hart_id + 4) threshold}}
    let dev'' := {dev' with data := {dev'.data with
      hart_thresholds := updFn dev'.data.hart_thresholds hart_id threshold}}
    (dev'', 0)

/-- aplic_hart_get_threshold_internal: returns 0 (not an error code) when
hart_id is out of range, otherwise the stored threshold.  The return type
is uint32_t; the function has no error channel. -/
def aplic_hart_get_threshold_internal (dev : AplicDev) (hart_id : Nat) : Nat :=
  if hart_id ≥ dev.config.max_harts then 0
  else dev.data.hart_thresholds hart_id

/-- aplic_get_idc_topi: read the invoking hart's IDC TOPI register, extract
the interrupt-id field (bits 9:0), and return UINT_MAX when that field is
zero (no interrupt pending). -/
def aplic_get_idc_topi (dev : AplicDev) (cpu_id : Nat) : Nat :=
  let topi_value := dev.hw.topi cpu_id
  let irq_id := (topi_value >>> 0) &&& APLIC_IDC_TOPI_ID_MASK
  if irq_id = 0 then UINT_MAX else irq_id

/-- riscv_aplic_get_irq (device present): the spec's claim_next. -/
def riscv_aplic_get_irq (dev : AplicDev) (cpu_id : Nat) : Nat :=
  aplic_get_idc_topi dev cpu_id

/-- aplic_send_msi: -ENOTSUP unless MSI mode is enabled; -EINVAL when the
target hart is out of range or the computed EID (msi_base_eid + irq_id,
in uint32 arithmetic) exceeds 63; otherwise write the TARGET register for
irq_id, set the pending bit to trigger MSI generation, and increment
msi_interrupts_sent. -/
def aplic_send_msi (dev : AplicDev) (target_hart target_guest irq_id : Nat) :
    AplicDev × Int :=
  if ¬dev.data.msi_mode_enabled then (dev, -ENOTSUP)
  else if target_hart ≥ dev.config.max_harts then (dev, -EINVAL)
  else
    let eid := (dev.data.msi_base_eid + irq_id) % 4294967296
    if eid > 63 then (dev, -EINVAL)
    else
      let target_value := ((target_hart &&& 0x3FFF) |||
        ((target_guest <<< 14) % 4294967296) ||| (7 <<< 20) ||| (1 <<< 31)) % 4294967296
      let dev1 := {dev with hw :=
        {dev.hw with target := updFn dev.hw.target irq_id target_value}}
      let w := local_irq_to_reg_index irq_id
      let bit_mask := BIT (irq_id &&& 31)
      let current_setip := aplic_setip_read dev1.hw w
      let dev2 := {dev1 with hw := aplic_setip_write dev1.hw w (current_setip ||| bit_mask)}
      let dev3 := {dev2 with data := {dev2.data with
        msi_interrupts_sent := dev2.data.msi_interrupts_sent + 1}}
      (dev3, 0)

/-- riscv_aplic_send_msi (device present): rechecks MSI mode, then
delegates to aplic_send_msi. -/
def riscv_aplic_send_msi (dev : AplicDev) (target_hart target_guest irq : Nat) :
    AplicDev × Int :=
  if ¬dev.data.msi_mode_enabled then (dev, -ENOTSUP)
  else aplic_send_msi dev target_hart target_guest irq

/-- riscv_aplic_is_msi_mode_enabled (device present). -/
def riscv_aplic_is_msi_mode_enabled (dev : AplicDev) : Bool :=
  dev.data.msi_mode_enabled

/-- struct riscv_aplic_irq_stats. -/
structure riscv_aplic_irq_stats where
  count : Nat
  last_cpu : Nat
  affinity_mask : Nat
  trigger_type : Nat
  priority : Nat
  enabled : Bool

/-- riscv_aplic_get_irq_stats: -EINVAL when irq = 0 or irq >= 1024,
otherwise a locked snapshot of the per-IRQ info. -/
def riscv_aplic_get_irq_stats (dev : AplicDev) (irq : Nat) :
    Except Int riscv_aplic_irq_stats :=
  if irq = 0 ∨ irq ≥ 1024 then .error (-EINVAL)
  else .ok
    { count := (dev.data.irq_info irq).count
      last_cpu := (dev.data.irq_info irq).last_cpu
      affinity_mask := (dev.data.irq_info irq).affinity_mask
      trigger_type := (dev.data.irq_info irq).trigger_type
      priority := (dev.data.irq_info irq).priority
      enabled := (dev.data.irq_info irq).enabled }

/-- riscv_aplic_get_total_interrupts (device present). -/
def riscv_aplic_get_total_interrupts (dev : AplicDev) : Nat :=
  dev.data.total_interrupts

/-- riscv_aplic_get_msi_interrupts_sent (device present). -/
def riscv_aplic_get_msi_interrupts_sent (dev : AplicDev) : Nat :=
  dev.data.msi_interrupts_sent

/-- riscv_aplic_reset_stats: zero count/last_cpu of every entry of the
1024-slot irq_info table and the three aggregate counters. -/
def riscv_aplic_reset_stats (dev : AplicDev) : AplicDev :=
  {dev with data := {dev.data with
    irq_info := fun i =>
      if i < 1024 then
        {dev.data.irq_info i with count := 0, last_cpu := 0}
      else dev.data.irq_info i
    total_interrupts := 0
    msi_interrupts_sent := 0
    direct_interrupts := 0}}

/-! ## AIA manager (intc_aia.c)

Discovers an APLIC engine and an IMSIC engine and unifies them under one
interrupt-control API.  Device discovery is modelled by presence flags;
a discovered device is ready. -/

/-- struct aia_data.  Device handles are modelled as presence flags. -/
structure aia_data where
  aplic_present : Bool
  imsic_present : Bool
  max_harts : Nat
  max_guests : Nat
  initialized : Bool
  msi_mode_supported : Bool
  direct_mode_supported : Bool
  msi_mode_enabled : Bool
  total_interrupts_handled : Nat
  msi_interrupts_handled : Nat
  direct_interrupts_handled : Nat
  errors_count : Nat
  debug_mode : Bool

/-- The zero-filled aia_data produced by memset at the top of aia_init. -/
def aia_data_zero : aia_data :=
  { aplic_present := false
    imsic_present := false
    max_harts := 0
    max_guests := 0
    initialized := false
    msi_mode_supported := false
    direct_mode_supported := false
    msi_mode_enabled := false
    total_interrupts_handled := 0
    msi_interrupts_handled := 0
    direct_interrupts_handled := 0
    errors_count := 0
    debug_mode := false }

/-- aia_init: discovery (modelled by the two found flags), mode
determination, configuration defaults, and the initialized mark.
Returns -ENODEV when neither engine was discovered. -/
def aia_init (aplic_found imsic_found : Bool) : Except Int aia_data :=
  let data := {aia_data_zero with
    aplic_present := aplic_found
    imsic_present := imsic_found}
  if data.aplic_present ∧ data.imsic_present then
    .ok {data with
      msi_mode_supported := true
      direct_mode_supported := true
      msi_mode_enabled := true
      max_harts := 4
      max_guests := 1
      initialized := true}
  else if data.aplic_present then
    .ok {data with
      msi_mode_supported := false
      direct_mode_supported := true
      msi_mode_enabled := false
      max_harts := 4
      max_guests := 1
      initialized := true}
  else if data.imsic_present then
    .ok {data with
      msi_mode_supported := true
      direct_mode_supported := false
      msi_mode_enabled := true
      max_harts := 4
      max_guests := 1
      initialized := true}
  else
    .error (-ENODEV)

/-- struct riscv_aia_caps. -/
structure riscv_aia_caps where
  msi_supported : Bool
  direct_supported : Bool
  msi_enabled : Bool
  max_harts : Nat
  max_guests : Nat

/-- riscv_aia_get_capabilities: snapshot of the static capability flags. -/
def riscv_aia_get_capabilities (d : aia_data) : riscv_aia_caps :=
  { msi_supported := d.msi_mode_supported
    direct_supported := d.direct_mode_supported
    msi_enabled := d.msi_mode_enabled
    max_harts := d.max_harts
    max_guests := d.max_guests }

/-- riscv_aia_reset_stats: zero the four aggregate counters. -/
def riscv_aia_reset_stats (d : aia_data) : aia_data :=
  {d with
    total_interrupts_handled := 0
    msi_interrupts_handled := 0
    direct_interrupts_handled := 0
    errors_count := 0}

/-- riscv_aia_set_debug_mode. -/
def riscv_aia_set_debug_mode (d : aia_data) (enable : Bool) : aia_data :=
  {d with debug_mode := enable}

/-- aia_update_stats: bump total and the msi/direct split. -/
def aia_update_stats (d : aia_data) (is_msi : Bool) : aia_data :=
  let d := {d with total_interrupts_handled := d.total_interrupts_handled + 1}
  if is_msi then {d with msi_interrupts_handled := d.msi_interrupts_handled + 1}
  else {d with direct_interrupts_handled := d.direct_interrupts_handled + 1}

/-- The whole AIA-managed system: the manager's data plus the engines it
discovered (absent device = NULL handle = not ready). -/
structure AiaSys where
  aia : aia_data
  aplic : Option AplicDev
  imsic : Option ImsicDev

/-- Which engine a unified AIA operation was routed to. -/
inductive AiaRoute where
  | toImsic
  | toAplic
  | noEngine
deriving DecidableEq

/-- aia_irq_enable: route to IMSIC when MSI mode is enabled and the IMSIC
is ready, else to the APLIC when ready, else to the IMSIC as last-resort
fallback; -ENOTSUP and an error-count bump when no engine is ready.
On success the aggregate statistics are updated. -/
def aia_irq_enable (sys : AiaSys) (irq : Nat) : AiaSys × Int × AiaRoute :=
  match sys.imsic, sys.aplic with
  | some imsic, _ =>
    if sys.aia.msi_mode_enabled then
      let sys' := {sys with
        imsic := some (riscv_imsic_irq_enable imsic irq)
        aia := aia_update_stats sys.aia sys.aia.msi_mode_enabled}
      (sys', 0, .toImsic)
    else
      match sys.aplic with
      | some aplic =>
        let sys' := {sys with
          aplic := some (riscv_aplic_irq_enable aplic irq)
          aia := aia_update_stats sys.aia sys.aia.msi_mode_enabled}
        (sys', 0, .toAplic)
      | none =>
        let sys' := {sys with
          imsic := some (riscv_imsic_irq_enable imsic irq)
          aia := aia_update_stats sys.aia sys.aia.msi_mode_enabled}
        (sys', 0, .toImsic)
  | none, some aplic =>
    let sys' := {sys with
      aplic := some (riscv_aplic_irq_enable aplic irq)
      aia := aia_update_stats sys.aia sys.aia.msi_mode_enabled}
    (sys', 0, .toAplic)
  | none, none =>
    ({sys with aia := {sys.aia with errors_count := sys.aia.errors_count + 1}},
      -ENOTSUP, .noEngine)

/-- aia_irq_disable: same routing as aia_irq_enable; no statistics update
and no error-count bump in the source. -/
def aia_irq_disable (sys : AiaSys) (irq : Nat) : AiaSys × Int × AiaRoute :=
  match sys.imsic, sys.aplic with
  | some imsic, _ =>
    if sys.aia.msi_mode_enabled then
      ({sys with imsic := some (riscv_imsic_irq_disable imsic irq)}, 0, .toImsic)
    else
      match sys.aplic with
      | some aplic =>
        ({sys with aplic := some (riscv_aplic_irq_disable aplic irq)}, 0, .toAplic)
      | none =>
        ({sys with imsic := some (riscv_imsic_irq_disable imsic irq)}, 0, .toImsic)
  | none, some aplic =>
    ({sys with aplic := some (riscv_aplic_irq_disable aplic irq)}, 0, .toAplic)
  | none, none => (sys, -ENOTSUP, .noEngine)

/-! ## Supporting lemmas about the IMSIC operations -/

theorem imsic_irq_enable_internal_data (dev : ImsicDev) (eid : Nat) :
    (imsic_irq_enable_internal dev eid).data =
      imsic_set_eie_word dev.data (eid / 32)
        (imsic_eie_word dev.data (eid / 32) ||| BIT (eid % 32)) := by
  unfold imsic_irq_enable_internal imsic_write_be imsic_write
  by_cases hbe : dev.config.big_endian <;> simp [hbe]

theorem imsic_irq_disable_internal_data (dev : ImsicDev) (eid : Nat) :
    (imsic_irq_disable_internal dev eid).data =
      imsic_set_eie_word dev.data (eid / 32)
        (imsic_eie_word dev.data (eid / 32) &&& (mask32 ^^^ BIT (eid % 32))) := by
  unfold imsic_irq_disable_internal imsic_write_be imsic_write
  by_cases hbe : dev.config.big_endian <;> simp [hbe]

theorem imsic_set_eie_word_frame (d : imsic_data) (mi v : Nat) :
    (imsic_set_eie_word d mi v).eip_pending0 = d.eip_pending0 ∧
    (imsic_set_eie_word d mi v).eip_pending1 = d.eip_pending1 ∧
    (imsic_set_eie_word d mi v).eithreshold = d.eithreshold ∧
    (imsic_set_eie_word d mi v).delivery_mode = d.delivery_mode ∧
    (imsic_set_eie_word d mi v).total_interrupts = d.total_interrupts ∧
    (imsic_set_eie_word d mi v).msi_interrupts = d.msi_interrupts ∧
    (imsic_set_eie_word d mi v).id_interrupts = d.id_interrupts ∧
    (imsic_set_eie_word d mi v).virtual_interrupts = d.virtual_interrupts ∧
    (imsic_set_eie_word d mi v).threshold_rejected = d.threshold_rejected := by
  unfold imsic_set_eie_word
  by_cases h : mi = 0 <;> simp [h]

theorem imsic_eie_word_set_other (d : imsic_data) (mi i v : Nat)
    (hmi : mi ≤ 1) (hi : i ≤ 1) (h : i ≠ mi) :
    imsic_eie_word (imsic_set_eie_word d mi v) i = imsic_eie_word d i := by
  unfold imsic_eie_word imsic_set_eie_word
  interval_cases mi <;> interval_cases i <;> simp_all

theorem imsic_eie_word_set_same (d : imsic_data) (mi v : Nat) (hmi : mi ≤ 1) :
    imsic_eie_word (imsic_set_eie_word d mi v) mi = v := by
  unfold imsic_eie_word imsic_set_eie_word
  interval_cases mi <;> simp_all

theorem imsic_is_enabled_after_enable (dev : ImsicDev) (eid eid' : Nat)
    (h63 : eid ≤ 63) (h63' : eid' ≤ 63) (hne : eid' ≠ eid) :
    riscv_imsic_irq_is_enabled (imsic_irq_enable_internal dev eid) eid' =
      riscv_imsic_irq_is_enabled dev eid' := by
  have hd := imsic_irq_enable_internal_data dev eid
  have hmi : eid / 32 ≤ 1 := by omega
  have hi : eid' / 32 ≤ 1 := by omega
  have hgt : ¬ eid' > 63 := by omega
  unfold riscv_imsic_irq_is_enabled
  rw [hd]
  simp only [if_neg hgt]
  by_cases hw : eid' / 32 = eid / 32
  · rw [hw, imsic_eie_word_set_same _ _ _ hmi]
    have hb : eid % 32 ≠ eid' % 32 := by omega
    have hiff : (imsic_eie_word dev.data (eid / 32) ||| BIT (eid % 32)) &&&
        BIT (eid' % 32) ≠ 0 ↔
        imsic_eie_word dev.data (eid / 32) &&& BIT (eid' % 32) ≠ 0 := by
      rw [land_BIT_ne_zero, land_BIT_ne_zero, testBit_or_BIT]
      simp [hb]
    exact if_congr hiff rfl rfl
  · rw [imsic_eie_word_set_other _ _ _ _ hmi hi hw]

theorem imsic_is_enabled_after_disable (dev : ImsicDev) (eid eid' : Nat)
    (h63 : eid ≤ 63) (h63' : eid' ≤ 63) (hne : eid' ≠ eid) :
    riscv_imsic_irq_is_enabled (imsic_irq_disable_internal dev eid) eid' =
      riscv_imsic_irq_is_enabled dev eid' := by
  have hd := imsic_irq_disable_internal_data dev eid
  have hmi : eid / 32 ≤ 1 := by omega
  have hi : eid' / 32 ≤ 1 := by omega
  have hgt : ¬ eid' > 63 := by omega
  unfold riscv_imsic_irq_is_enabled
  rw [hd]
  simp only [if_neg hgt]
  by_cases hw : eid' / 32 = eid / 32
  · rw [hw, imsic_eie_word_set_same _ _ _ hmi]
    have hb : eid % 32 ≠ eid' % 32 := by omega
    have h32 : eid' % 32 < 32 := Nat.mod_lt _ (by norm_num)
    have hiff : (imsic_eie_word dev.data (eid / 32) &&& (mask32 ^^^ BIT (eid % 32))) &&&
        BIT (eid' % 32) ≠ 0 ↔
        imsic_eie_word dev.data (eid / 32) &&& BIT (eid' % 32) ≠ 0 := by
      rw [land_BIT_ne_zero, land_BIT_ne_zero, testBit_and_not_BIT]
      simp [hb, h32]
    exact if_congr hiff rfl rfl
  · rw [imsic_eie_word_set_other _ _ _ _ hmi hi hw]

/-- C10: IMSIC irq_enable(eid) and irq_disable(eid), for any eid <= 63,
modify only the enable-mask bit belonging to eid: for every other
eid' <= 63 with eid' != eid, is_enabled(eid') returns the same value
before and after the call, and the pending masks, threshold, delivery
mode, and all statistics counters are unchanged. -/
theorem C10_imsic_enable_disable_frame (dev : ImsicDev) (eid eid' : Nat)
    (h63 : eid ≤ 63) (h63' : eid' ≤ 63) (hne : eid' ≠ eid) :
    (riscv_imsic_irq_is_enabled (imsic_irq_enable_internal dev eid) eid' =
       riscv_imsic_irq_is_enabled dev eid') ∧
    (riscv_imsic_irq_is_enabled (imsic_irq_disable_internal dev eid) eid' =
       riscv_imsic_irq_is_enabled dev eid') ∧
    ((imsic_irq_enable_internal dev eid).data.eip_pending0 = dev.data.eip_pending0 ∧
     (imsic_irq_enable_internal dev eid).data.eip_pending1 = dev.data.eip_pending1 ∧
     (imsic_irq_enable_internal dev eid).data.eithreshold = dev.data.eithreshold ∧
     (imsic_irq_enable_internal dev eid).data.delivery_mode = dev.data.delivery_mode ∧
     (imsic_irq_enable_internal dev eid).data.total_interrupts = dev.data.total_interrupts ∧
     (imsic_irq_enable_internal dev eid).data.msi_interrupts = dev.data.msi_interrupts ∧
     (imsic_irq_enable_internal dev eid).data.id_interrupts = dev.data.id_interrupts ∧
     (imsic_irq_enable_internal dev eid).data.virtual_interrupts = dev.data.virtual_interrupts ∧
     (imsic_irq_enable_internal dev eid).data.threshold_rejected = dev.data.threshold_rejected) ∧
    ((imsic_irq_disable_internal dev eid).data.eip_pending0 = dev.data.eip_pending0 ∧
     (imsic_irq_disable_internal dev eid).data.eip_pending1 = dev.data.eip_pending1 ∧
     (imsic_irq_disable_internal dev eid).data.eithreshold = dev.data.eithreshold ∧
     (imsic_irq_disable_internal dev eid).data.delivery_mode = dev.data.delivery_mode ∧
     (imsic_irq_disable_internal dev eid).data.total_interrupts = dev.data.total_interrupts ∧
     (imsic_irq_disable_internal dev eid).data.msi_interrupts = dev.data.msi_interrupts ∧
     (imsic_irq_disable_internal dev eid).data.id_interrupts = dev.data.id_interrupts ∧
     (imsic_irq_disable_internal dev eid).data.virtual_interrupts = dev.data.virtual_interrupts ∧
     (imsic_irq_disable_internal dev eid).data.threshold_rejected = dev.data.threshold_rejected) := by
  refine ⟨imsic_is_enabled_after_enable dev eid eid' h63 h63' hne,
    imsic_is_enabled_after_disable dev eid eid' h63 h63' hne, ?_, ?_⟩
  · rw [imsic_irq_enable_internal_data]
    exact imsic_set_eie_word_frame dev.data (eid / 32) _
  · rw [imsic_irq_disable_internal_data]
    exact imsic_set_eie_word_frame dev.data (eid / 32) _

/-- A concrete IMSIC device instance used for witnesses. -/
def imsicDev0 : ImsicDev :=
  { config :=
    { base := 0x24000000
      hart_id := 0
      guest_id := 0
      max_eid := 255
      max_prio := 7
      big_endian := false }
    data :=
    { eie_mask0 := 5
      eie_mask1 := 0
      eip_pending0 := 0
      eip_pending1 := 0
      eithreshold := 0
      delivery_mode := 1
      total_interrupts := 0
      msi_interrupts := 0
      id_interrupts := 0
      virtual_interrupts := 0
      threshold_rejected := 0 }
    hw := fun _ => 0 }

/-- Witness for C10 at eid = 1, eid' = 2 on a concrete device. -/
theorem C10_witness :
    (riscv_imsic_irq_is_enabled (imsic_irq_enable_internal imsicDev0 1) 2 =
       riscv_imsic_irq_is_enabled imsicDev0 2) ∧
    (riscv_imsic_irq_is_enabled (imsic_irq_disable_internal imsicDev0 1) 2 =
       riscv_imsic_irq_is_enabled imsicDev0 2) ∧
    ((imsic_irq_enable_internal imsicDev0 1).data.eip_pending0 = imsicDev0.data.eip_pending0 ∧
     (imsic_irq_enable_internal imsicDev0 1).data.eip_pending1 = imsicDev0.data.eip_pending1 ∧
     (imsic_irq_enable_internal imsicDev0 1).data.eithreshold = imsicDev0.data.eithreshold ∧
     (imsic_irq_enable_internal imsicDev0 1).data.delivery_mode = imsicDev0.data.delivery_mode ∧
     (imsic_irq_enable_internal imsicDev0 1).data.total_interrupts = imsicDev0.data.total_interrupts ∧
     (imsic_irq_enable_internal imsicDev0 1).data.msi_interrupts = imsicDev0.data.msi_interrupts ∧
     (imsic_irq_enable_internal imsicDev0 1).data.id_interrupts = imsicDev0.data.id_interrupts ∧
     (imsic_irq_enable_internal imsicDev0 1).data.virtual_interrupts = imsicDev0.data.virtual_interrupts ∧
     (imsic_irq_enable_internal imsicDev0 1).data.threshold_rejected = imsicDev0.data.threshold_rejected) ∧
    ((imsic_irq_disable_internal imsicDev0 1).data.eip_pending0 = imsicDev0.data.eip_pending0 ∧
     (imsic_irq_disable_internal imsicDev0 1).data.eip_pending1 = imsicDev0.data.eip_pending1 ∧
     (imsic_irq_disable_internal imsicDev0 1).data.eithreshold = imsicDev0.data.eithreshold ∧
     (imsic_irq_disable_internal imsicDev0 1).data.delivery_mode = imsicDev0.data.delivery_mode ∧
     (imsic_irq_disable_internal imsicDev0 1).data.total_interrupts = imsicDev0.data.total_interrupts ∧
     (imsic_irq_disable_internal imsicDev0 1).data.msi_interrupts = imsicDev0.data.msi_interrupts ∧
     (imsic_irq_disable_internal imsicDev0 1).data.id_interrupts = imsicDev0.data.id_interrupts ∧
     (imsic_irq_disable_internal imsicDev0 1).data.virtual_interrupts = imsicDev0.data.virtual_interrupts ∧
     (imsic_irq_disable_internal imsicDev0 1).data.threshold_rejected = imsicDev0.data.threshold_rejected) :=
  C10_imsic_enable_disable_frame imsicDev0 1 2 (by decide) (by decide) (by decide)

/-- A concrete per-IRQ info record with nonzero statistics. -/
def aplicIrqInfo0 : aplic_irq_info :=
  { count := 3
    last_cpu := 1
    affinity_mask := 1
    trigger_type := 6
    priority := 1
    enabled := false }

/-- A concrete APLIC device instance used for witnesses (MSI mode on,
QEMU-style configuration: 1024 sources, 4 harts). -/
def aplicDev0 : AplicDev :=
  { config := { nr_irqs := 1024, max_harts := 4 }
    data :=
    { irq_info := fun _ => aplicIrqInfo0
      total_interrupts := 7
      hart_thresholds := fun _ => 0
      msi_mode_enabled := true
      msi_base_eid := 0
      msi_interrupts_sent := 2
      direct_interrupts := 1 }
    hw :=
    { domaincfg := 0x104
      sourcecfg := fun _ => 0
      ie := fun _ => 0
      ip := fun _ => 0
      target := fun _ => 0
      topi := fun _ => 0 } }

/-- C9: after reset_stats(), every statistics query returns all-zero
counters: for every irq in [1, source_count), get_stats(irq) reports
count == 0 and last_hart == 0 (the configuration snapshot fields are
untouched), the APLIC aggregates total_interrupts, msi_interrupts_sent
and direct_interrupts are all 0, and the IMSIC's five counters are all
0 after its reset_stats(). -/
theorem C9_reset_stats_all_zero (adev : AplicDev) (imdev : ImsicDev) (irq : Nat)
    (h1 : 1 ≤ irq) (h2 : irq < 1024) :
    riscv_aplic_get_irq_stats (riscv_aplic_reset_stats adev) irq =
      Except.ok
        { count := 0
          last_cpu := 0
          affinity_mask := (adev.data.irq_info irq).affinity_mask
          trigger_type := (adev.data.irq_info irq).trigger_type
          priority := (adev.data.irq_info irq).priority
          enabled := (adev.data.irq_info irq).enabled } ∧
    riscv_aplic_get_total_interrupts (riscv_aplic_reset_stats adev) = 0 ∧
    riscv_aplic_get_msi_interrupts_sent (riscv_aplic_reset_stats adev) = 0 ∧
    (riscv_aplic_reset_stats adev).data.direct_interrupts = 0 ∧
    (riscv_imsic_get_stats (riscv_imsic_reset_stats imdev)).total_interrupts = 0 ∧
    (riscv_imsic_get_stats (riscv_imsic_reset_stats imdev)).msi_interrupts = 0 ∧
    (riscv_imsic_get_stats (riscv_imsic_reset_stats imdev)).id_interrupts = 0 ∧
    (riscv_imsic_get_stats (riscv_imsic_reset_stats imdev)).virtual_interrupts = 0 ∧
    (riscv_imsic_get_stats (riscv_imsic_reset_stats imdev)).threshold_rejected = 0 := by
  have h0 : ¬(irq = 0 ∨ irq ≥ 1024) := by omega
  refine ⟨?_, rfl, rfl, rfl, rfl, rfl, rfl, rfl, rfl⟩
  unfold riscv_aplic_get_irq_stats riscv_aplic_reset_stats
  rw [if_neg h0]
  simp [h2]

/-- Witness for C9 at irq = 5 on concrete devices. -/
theorem C9_witness :
    riscv_aplic_get_irq_stats (riscv_aplic_reset_stats aplicDev0) 5 =
      Except.ok
        { count := 0
          last_cpu := 0
          affinity_mask := (aplicDev0.data.irq_info 5).affinity_mask
          trigger_type := (aplicDev0.data.irq_info 5).trigger_type
          priority := (aplicDev0.data.irq_info 5).priority
          enabled := (aplicDev0.data.irq_info 5).enabled } ∧
    riscv_aplic_get_total_interrupts (riscv_aplic_reset_stats aplicDev0) = 0 ∧
    riscv_aplic_get_msi_interrupts_sent (riscv_aplic_reset_stats aplicDev0) = 0 ∧
    (riscv_aplic_reset_stats aplicDev0).data.direct_interrupts = 0 ∧
    (riscv_imsic_get_stats (riscv_imsic_reset_stats imsicDev0)).total_interrupts = 0 ∧
    (riscv_imsic_get_stats (riscv_imsic_reset_stats imsicDev0)).msi_interrupts = 0 ∧
    (riscv_imsic_get_stats (riscv_imsic_reset_stats imsicDev0)).id_interrupts = 0 ∧
    (riscv_imsic_get_stats (riscv_imsic_reset_stats imsicDev0)).virtual_interrupts = 0 ∧
    (riscv_imsic_get_stats (riscv_imsic_reset_stats imsicDev0)).threshold_rejected = 0 :=
  C9_reset_stats_all_zero aplicDev0 imsicDev0 5 (by decide) (by decide)

/-- C2 counterexample: the claim says that with MSI mode enabled,
is_enabled(irq) returns true unconditionally for every irq.  On the
concrete device aplicDev0 MSI mode is enabled, yet is_enabled(5) returns
0 (false), because aplic_irq_is_enabled_internal always reads back the
SETIE bit and has no MSI-mode special case. -/
theorem C2_counterexample :
    riscv_aplic_is_msi_mode_enabled aplicDev0 = true ∧
    riscv_aplic_irq_is_enabled aplicDev0 5 = 0 := by
  constructor
  · rfl
  · decide

/-- C2 (amended): is_enabled(irq) reads back the SETIE bit for irq in
every mode; the result does not depend on msi_mode_enabled, and it is 1
exactly when the hardware enable bit of irq is set.  (The claimed
unconditional true in MSI mode does not exist in the source.) -/
theorem C2_is_enabled_reads_setie (dev : AplicDev) (irq : Nat) (b : Bool) :
    riscv_aplic_irq_is_enabled
        {dev with data := {dev.data with msi_mode_enabled := b}} irq =
      riscv_aplic_irq_is_enabled dev irq ∧
    (riscv_aplic_irq_is_enabled dev irq = 1 ↔
      (dev.hw.ie (irq / 32)).testBit (irq % 32) = true) ∧
    (riscv_aplic_irq_is_enabled dev irq = 0 ↔
      (dev.hw.ie (irq / 32)).testBit (irq % 32) = false) := by
  refine ⟨rfl, ?_, ?_⟩ <;>
  · unfold riscv_aplic_irq_is_enabled aplic_irq_is_enabled_internal aplic_setie_read
      local_irq_to_reg_index
    rw [and31_eq_mod, shiftRight5_eq_div]
    by_cases h : (dev.hw.ie (irq / 32)) &&& BIT (irq % 32) ≠ 0
    · have ht := (land_BIT_ne_zero _ _).mp h
      simp [h, ht]
    · have ht : (dev.hw.ie (irq / 32)).testBit (irq % 32) = false := by
        rcases Bool.eq_false_or_eq_true ((dev.hw.ie (irq / 32)).testBit (irq % 32)) with htt | hf
        · exact absurd ((land_BIT_ne_zero _ _).mpr htt) h
        · exact hf
      simp [h, ht]

/-- Modelled from the spec wording of C5, for comparison with the source:
a hart_get_threshold that would fail with InvalidArgument when
hart >= max_harts.  The source function has no error channel. -/
def hart_get_threshold_claimed (dev : AplicDev) (hart_id : Nat) : Except Int Nat :=
  if hart_id ≥ dev.config.max_harts then .error (-EINVAL)
  else .ok (dev.data.hart_thresholds hart_id)

/-- C5 counterexample: for hart = 4 = max_harts the source getter returns
the ordinary value 0 — the same result as a successful query of in-range
hart 0 whose stored threshold is 0 — rather than any failure indication,
while the claimed behaviour is an InvalidArgument error.  The getter's
return type (uint32_t) has no error channel at all. -/
theorem C5_counterexample :
    aplic_hart_get_threshold_internal aplicDev0 4 = 0 ∧
    aplic_hart_get_threshold_internal aplicDev0 0 = 0 ∧
    hart_get_threshold_claimed aplicDev0 4 = Except.error (-EINVAL) := by
  refine ⟨by decide, by decide, ?_⟩
  rfl

/-- C5 (amended): for every hart < max_harts and value in [0, 255],
hart_set_threshold succeeds and a subsequent hart_get_threshold returns
the value exactly; hart_set_threshold with value > 255 or
hart >= max_harts fails with -EINVAL and leaves the stored thresholds
unchanged; hart_get_threshold on hart >= max_harts returns 0 (it has no
error channel, unlike what the claim states). -/
theorem C5_hart_threshold (dev : AplicDev) (hart value : Nat) :
    (hart < dev.config.max_harts → value ≤ 255 →
      (aplic_hart_set_threshold_internal dev hart value).2 = 0 ∧
      aplic_hart_get_threshold_internal
        (aplic_hart_set_threshold_internal dev hart value).1 hart = value) ∧
    (value > 255 →
      (aplic_hart_set_threshold_internal dev hart value).2 = -EINVAL ∧
      (aplic_hart_set_threshold_internal dev hart value).1.data.hart_thresholds =
        dev.data.hart_thresholds) ∧
    (hart ≥ dev.config.max_harts →
      (aplic_hart_set_threshold_internal dev hart value).2 = -EINVAL ∧
      (aplic_hart_set_threshold_internal dev hart value).1.data.hart_thresholds =
        dev.data.hart_thresholds ∧
      aplic_hart_get_threshold_internal dev hart = 0) := by
  refine ⟨?_, ?_, ?_⟩
  · intro hh hv
    have hh' : ¬ hart ≥ dev.config.max_harts := by omega
    have hv' : ¬ value > 255 := by omega
    unfold aplic_hart_set_threshold_internal aplic_hart_get_threshold_internal
    rw [if_neg hh', if_neg hv']
    exact ⟨rfl, by simp [hh', updFn_same]⟩
  · intro hv
    unfold aplic_hart_set_threshold_internal
    by_cases hh : hart ≥ dev.config.max_harts
    · rw [if_pos hh]
      exact ⟨rfl, rfl⟩
    · rw [if_neg hh, if_pos hv]
      exact ⟨rfl, rfl⟩
  · intro hh
    unfold aplic_hart_set_threshold_internal aplic_hart_get_threshold_internal
    rw [if_pos hh, if_pos hh]
    exact ⟨rfl, rfl, rfl⟩

/-- Witness for C5: on aplicDev0 (max_harts = 4), setting threshold 255 on
hart 0 round-trips; value 256 and hart 4 fail with -EINVAL leaving the
thresholds unchanged; the getter on hart 4 returns 0. -/
theorem C5_witness :
    ((aplic_hart_set_threshold_internal aplicDev0 0 255).2 = 0 ∧
     aplic_hart_get_threshold_internal
       (aplic_hart_set_threshold_internal aplicDev0 0 255).1 0 = 255) ∧
    ((aplic_hart_set_threshold_internal aplicDev0 1 256).2 = -EINVAL ∧
     (aplic_hart_set_threshold_internal aplicDev0 1 256).1.data.hart_thresholds =
       aplicDev0.data.hart_thresholds) ∧
    ((aplic_hart_set_threshold_internal aplicDev0 4 7).2 = -EINVAL ∧
     (aplic_hart_set_threshold_internal aplicDev0 4 7).1.data.hart_thresholds =
       aplicDev0.data.hart_thresholds ∧
     aplic_hart_get_threshold_internal aplicDev0 4 = 0) :=
  ⟨(C5_hart_threshold aplicDev0 0 255).1 (by decide) (by decide),
   (C5_hart_threshold aplicDev0 1 256).2.1 (by decide),
   (C5_hart_threshold aplicDev0 4 7).2.2 (by decide)⟩

/-- C6: for every irq with 1 <= irq < source_count and every trigger type
t in the valid set {EdgeRising = 4, EdgeFalling = 5, LevelHigh = 6,
LevelLow = 7}, set_trigger_type(irq, t) succeeds and a subsequent
get_trigger_type(irq) returns t; set_trigger_type fails with -EINVAL
whenever irq = 0, irq >= source_count, or t is not in the valid set. -/
theorem C6_trigger_type_roundtrip (dev : AplicDev) (irq t : Nat) :
    (1 ≤ irq → irq < dev.config.nr_irqs →
      (t = APLIC_TRIGGER_EDGE_RISING ∨ t = APLIC_TRIGGER_EDGE_FALLING ∨
       t = APLIC_TRIGGER_LEVEL_HIGH ∨ t = APLIC_TRIGGER_LEVEL_LOW) →
      (aplic_irq_set_trigger_type_internal dev irq t).2 = 0 ∧
      aplic_irq_get_trigger_type_internal
        (aplic_irq_set_trigger_type_internal dev irq t).1 irq = Int.ofNat t) ∧
    ((irq = 0 ∨ irq ≥ dev.config.nr_irqs ∨
      ¬(t = APLIC_TRIGGER_EDGE_RISING ∨ t = APLIC_TRIGGER_EDGE_FALLING ∨
        t = APLIC_TRIGGER_LEVEL_HIGH ∨ t = APLIC_TRIGGER_LEVEL_LOW)) →
      (aplic_irq_set_trigger_type_internal dev irq t).2 = -EINVAL) := by
  constructor
  · intro h1 h2 ht
    have hb : ¬(irq = 0 ∨ irq ≥ dev.config.nr_irqs) := by omega
    have ht8 : t < 8 := by
      unfold APLIC_TRIGGER_EDGE_RISING APLIC_TRIGGER_EDGE_FALLING
        APLIC_TRIGGER_LEVEL_HIGH APLIC_TRIGGER_LEVEL_LOW at ht
      omega
    unfold aplic_irq_set_trigger_type_internal aplic_irq_get_trigger_type_internal
    rw [if_neg hb, if_pos ht]
    refine ⟨rfl, ?_⟩
    rw [if_neg hb]
    have hcfg : APLIC_SOURCECFG_SM_MASK = 7 := rfl
    simp only [updFn_same, hcfg]
    rw [low3_roundtrip _ _ ht8]
  · intro hfail
    unfold aplic_irq_set_trigger_type_internal
    rcases hfail with h | h | h
    · rw [if_pos (Or.inl h)]
    · rw [if_pos (Or.inr h)]
    · by_cases hb : irq = 0 ∨ irq ≥ dev.config.nr_irqs
      · rw [if_pos hb]
      · rw [if_neg hb, if_neg h]

/-- Witness for C6: on aplicDev0 (source_count = 1024),
set_trigger_type(5, EdgeRising) succeeds and get_trigger_type(5) returns
EdgeRising; set_trigger_type(0, EdgeRising) and set_trigger_type(5, 3)
fail with -EINVAL. -/
theorem C6_witness :
    ((aplic_irq_set_trigger_type_internal aplicDev0 5 4).2 = 0 ∧
     aplic_irq_get_trigger_type_internal
       (aplic_irq_set_trigger_type_internal aplicDev0 5 4).1 5 = Int.ofNat 4) ∧
    (aplic_irq_set_trigger_type_internal aplicDev0 0 4).2 = -EINVAL ∧
    (aplic_irq_set_trigger_type_internal aplicDev0 5 3).2 = -EINVAL :=
  ⟨(C6_trigger_type_roundtrip aplicDev0 5 4).1 (by decide) (by decide) (by decide),
   (C6_trigger_type_roundtrip aplicDev0 0 4).2 (by decide),
   (C6_trigger_type_roundtrip aplicDev0 5 3).2 (by decide)⟩

theorem and_BIT_eq_zero_of_testBit_false (y k : Nat) (h : y.testBit k = false) :
    y &&& BIT k = 0 := by
  rw [BIT_eq_two_pow, Nat.and_two_pow, h]
  simp

/-- C7 counterexample: the claim says enable(irq) is a silent no-op for
out-of-range irq (irq = 0 or irq >= source_count) leaving all per-source
state unchanged.  On aplicDev0 (all enable bits clear), enable(0) sets
hardware enable bit 0: the SETIE word changes from 0 to 1, so the call is
not a no-op on the per-source hardware state.  Only the software mirror
update is skipped. -/
theorem C7_counterexample :
    (riscv_aplic_irq_enable aplicDev0 0).hw.ie 0 = 1 ∧
    aplicDev0.hw.ie 0 = 0 := by
  constructor
  · decide
  · rfl

/-- C7 (amended): enable(irq)/disable(irq) never report an error (they
return no status); for every irq — in range or not — the hardware
enable-bit write is performed, setting/clearing bit irq mod 32 of enable
word irq div 32 and touching no other enable word; the software mirror
InterruptSource.enabled is updated only when 0 < irq < 1024, and is left
untouched (the whole irq_info table unchanged) otherwise. -/
theorem C7_enable_disable_behavior (dev : AplicDev) (irq : Nat) :
    ((riscv_aplic_irq_enable dev irq).hw.ie (irq / 32)).testBit (irq % 32) = true ∧
    (∀ w, w ≠ irq / 32 → (riscv_aplic_irq_enable dev irq).hw.ie w = dev.hw.ie w) ∧
    (0 < irq ∧ irq < 1024 →
      ((riscv_aplic_irq_enable dev irq).data.irq_info irq).enabled = true) ∧
    (¬(0 < irq ∧ irq < 1024) →
      (riscv_aplic_irq_enable dev irq).data.irq_info = dev.data.irq_info) ∧
    ((riscv_aplic_irq_disable dev irq).hw.ie (irq / 32)).testBit (irq % 32) = false ∧
    (∀ w, w ≠ irq / 32 → (riscv_aplic_irq_disable dev irq).hw.ie w = dev.hw.ie w) ∧
    (0 < irq ∧ irq < 1024 →
      ((riscv_aplic_irq_disable dev irq).data.irq_info irq).enabled = false) ∧
    (¬(0 < irq ∧ irq < 1024) →
      (riscv_aplic_irq_disable dev irq).data.irq_info = dev.data.irq_info) := by
  have hew : ∀ w, (riscv_aplic_irq_enable dev irq).hw.ie w =
      updFn dev.hw.ie (irq / 32)
        (dev.hw.ie (irq / 32) ||| (dev.hw.ie (irq / 32) ||| BIT (irq % 32))) w := by
    intro w
    unfold riscv_aplic_irq_enable aplic_irq_enable_internal aplic_setie_write
      aplic_setie_read local_irq_to_reg_index
    rw [and31_eq_mod, shiftRight5_eq_div]
    by_cases hr : 0 < irq ∧ irq < 1024 <;> simp [hr]
  have hdw : ∀ w, (riscv_aplic_irq_disable dev irq).hw.ie w =
      updFn dev.hw.ie (irq / 32)
        (dev.hw.ie (irq / 32) &&& (mask32 ^^^ (0 ||| BIT (irq % 32)))) w := by
    intro w
    unfold riscv_aplic_irq_disable aplic_irq_disable_internal aplic_clrie_write
      aplic_clrie_read local_irq_to_reg_index
    rw [and31_eq_mod, shiftRight5_eq_div]
    by_cases hr : 0 < irq ∧ irq < 1024 <;> simp [hr]
  have hm32 : irq % 32 < 32 := Nat.mod_lt _ (by norm_num)
  refine ⟨?_, ?_, ?_, ?_, ?_, ?_, ?_, ?_⟩
  · rw [hew, updFn_same, Nat.testBit_lor, Nat.testBit_lor, BIT_eq_two_pow,
      Nat.testBit_two_pow_self]
    simp
  · intro w hw
    rw [hew, updFn_other _ _ _ _ hw]
  · intro hr
    unfold riscv_aplic_irq_enable
    rw [if_pos hr]
    simp [updFn_same]
  · intro hr
    unfold riscv_aplic_irq_enable aplic_irq_enable_internal
    rw [if_neg hr]
  · rw [hdw, updFn_same]
    have h0 : (0 : Nat) ||| BIT (irq % 32) = BIT (irq % 32) := Nat.zero_or _
    rw [h0, testBit_and_not_BIT]
    simp [hm32]
  · intro w hw
    rw [hdw, updFn_other _ _ _ _ hw]
  · intro hr
    unfold riscv_aplic_irq_disable
    rw [if_pos hr]
    simp [updFn_same]
  · intro hr
    unfold riscv_aplic_irq_disable aplic_irq_disable_internal
    rw [if_neg hr]

/-- Witness for C7 at in-range irq = 3 and out-of-range irq = 0 on
aplicDev0. -/
theorem C7_witness :
    ((riscv_aplic_irq_enable aplicDev0 3).hw.ie 0).testBit 3 = true ∧
    ((riscv_aplic_irq_enable aplicDev0 3).data.irq_info 3).enabled = true ∧
    ((riscv_aplic_irq_disable aplicDev0 3).hw.ie 0).testBit 3 = false ∧
    ((riscv_aplic_irq_disable aplicDev0 3).data.irq_info 3).enabled = false ∧
    (riscv_aplic_irq_enable aplicDev0 0).data.irq_info = aplicDev0.data.irq_info :=
  ⟨(C7_enable_disable_behavior aplicDev0 3).1,
   (C7_enable_disable_behavior aplicDev0 3).2.2.1 (by decide),
   (C7_enable_disable_behavior aplicDev0 3).2.2.2.2.1,
   (C7_enable_disable_behavior aplicDev0 3).2.2.2.2.2.2.1 (by decide),
   (C7_enable_disable_behavior aplicDev0 0).2.2.2.1 (by decide)⟩

/-- An APLIC device whose hart-0 IDC TOPI register presents the value
0x400: nonzero as a raw read, but with a zero interrupt-id field
(bits 9:0). -/
def aplicDevTopi : AplicDev :=
  {aplicDev0 with hw := {aplicDev0.hw with topi := fun _ => 0x400}}

/-- An APLIC device whose hart-0 IDC TOPI register presents id 7. -/
def aplicDevTopi7 : AplicDev :=
  {aplicDev0 with hw := {aplicDev0.hw with topi := fun _ => 7}}

/-- C8 counterexample: the claim says the none-sentinel is returned
exactly when the claim-register read yields 0.  With a TOPI read of
0x400 (nonzero raw value, zero interrupt-id field) the driver still
returns the sentinel, so the claimed equivalence with the raw read is
false; the sentinel tracks the id field, not the whole register. -/
theorem C8_counterexample :
    ¬ (aplic_get_idc_topi aplicDevTopi 0 = UINT_MAX ↔ aplicDevTopi.hw.topi 0 = 0) := by
  decide

/-- C8 (amended): claim_next reads the invoking hart's IDC TOPI register;
the none-sentinel (UINT_MAX) is returned if and only if the interrupt-id
field (bits 9:0) of the register read is 0, and otherwise the returned
interrupt id is exactly that field. -/
theorem C8_claim_next_sentinel (dev : AplicDev) (hart : Nat) :
    (riscv_aplic_get_irq dev hart = UINT_MAX ↔
      dev.hw.topi hart &&& APLIC_IDC_TOPI_ID_MASK = 0) ∧
    (dev.hw.topi hart &&& APLIC_IDC_TOPI_ID_MASK ≠ 0 →
      riscv_aplic_get_irq dev hart = dev.hw.topi hart &&& APLIC_IDC_TOPI_ID_MASK) := by
  have hle : dev.hw.topi hart &&& APLIC_IDC_TOPI_ID_MASK ≤ 1023 := by
    have h := Nat.and_le_right (n := dev.hw.topi hart) (m := APLIC_IDC_TOPI_ID_MASK)
    unfold APLIC_IDC_TOPI_ID_MASK at h ⊢
    omega
  unfold riscv_aplic_get_irq aplic_get_idc_topi
  simp only [Nat.shiftRight_zero]
  constructor
  · by_cases h : dev.hw.topi hart &&& APLIC_IDC_TOPI_ID_MASK = 0
    · simp [h]
    · rw [if_neg h]
      unfold UINT_MAX
      constructor
      · intro he
        omega
      · intro he
        exact absurd he h
  · intro h
    rw [if_neg h]

/-- Witness for C8: with a concrete TOPI value of 7 the returned id is
the id field 7, and on aplicDev0 (TOPI reads 0) the sentinel comes back. -/
theorem C8_witness :
    riscv_aplic_get_irq aplicDevTopi7 0 =
      aplicDevTopi7.hw.topi 0 &&& APLIC_IDC_TOPI_ID_MASK :=
  (C8_claim_next_sentinel aplicDevTopi7 0).2 (by decide)

/-- C3: send_msi fails with -ENOTSUP when MSI mode is not active; with
-EINVAL when target_hart >= max_harts or when the computed event id
(msi_base_eid + irq in uint32 arithmetic) exceeds 63; every failure
leaves the device — in particular msi_interrupts_sent — unchanged; on
success it increments msi_interrupts_sent by exactly 1. -/
theorem C3_send_msi (dev : AplicDev) (target_hart target_guest irq : Nat) :
    (¬dev.data.msi_mode_enabled = true →
      aplic_send_msi dev target_hart target_guest irq = (dev, -ENOTSUP)) ∧
    (dev.data.msi_mode_enabled = true → target_hart ≥ dev.config.max_harts →
      aplic_send_msi dev target_hart target_guest irq = (dev, -EINVAL)) ∧
    (dev.data.msi_mode_enabled = true → target_hart < dev.config.max_harts →
      (dev.data.msi_base_eid + irq) % 4294967296 > 63 →
      aplic_send_msi dev target_hart target_guest irq = (dev, -EINVAL)) ∧
    (dev.data.msi_mode_enabled = true → target_hart < dev.config.max_harts →
      (dev.data.msi_base_eid + irq) % 4294967296 ≤ 63 →
      (aplic_send_msi dev target_hart target_guest irq).2 = 0 ∧
      (aplic_send_msi dev target_hart target_guest irq).1.data.msi_interrupts_sent =
        dev.data.msi_interrupts_sent + 1) := by
  refine ⟨?_, ?_, ?_, ?_⟩
  · intro hmsi
    unfold aplic_send_msi
    rw [if_pos hmsi]
  · intro hmsi hh
    unfold aplic_send_msi
    rw [if_neg (by simp [hmsi]), if_pos hh]
  · intro hmsi hh he
    unfold aplic_send_msi
    rw [if_neg (by simp [hmsi]), if_neg (by omega), if_pos he]
  · intro hmsi hh he
    unfold aplic_send_msi
    rw [if_neg (by simp [hmsi]), if_neg (by omega), if_neg (by omega)]
    exact ⟨rfl, rfl⟩

/-- An APLIC device in Direct mode (MSI mode disabled). -/
def aplicDevDirect : AplicDev :=
  {aplicDev0 with data := {aplicDev0.data with msi_mode_enabled := false}}

/-- Witness for C3: on aplicDev0 (MSI mode on, max_harts = 4,
msi_base_eid = 0, msi_interrupts_sent = 2): send_msi(0, 0, 5) succeeds
and bumps the counter to 3; send_msi(4, 0, 5) fails with -EINVAL leaving
the device unchanged; send_msi(0, 0, 100) fails with -EINVAL; on
aplicDevDirect send_msi fails with -ENOTSUP. -/
theorem C3_witness :
    ((aplic_send_msi aplicDev0 0 0 5).2 = 0 ∧
     (aplic_send_msi aplicDev0 0 0 5).1.data.msi_interrupts_sent =
       aplicDev0.data.msi_interrupts_sent + 1) ∧
    aplic_send_msi aplicDev0 4 0 5 = (aplicDev0, -EINVAL) ∧
    aplic_send_msi aplicDev0 0 0 100 = (aplicDev0, -EINVAL) ∧
    aplic_send_msi aplicDevDirect 0 0 5 = (aplicDevDirect, -ENOTSUP) :=
  ⟨(C3_send_msi aplicDev0 0 0 5).2.2.2 (by decide) (by decide) (by decide),
   (C3_send_msi aplicDev0 4 0 5).2.1 (by decide) (by decide),
   (C3_send_msi aplicDev0 0 0 100).2.2.1 (by decide) (by decide) (by decide),
   (C3_send_msi aplicDevDirect 0 0 5).1 (by decide)⟩

theorem imsic_irq_clear_pending_internal_data (dev : ImsicDev) (eid : Nat) :
    (imsic_irq_clear_pending_internal dev eid).data =
      imsic_set_eip_word dev.data (eid / 32)
        (imsic_eip_word dev.data (eid / 32) &&& (mask32 ^^^ BIT (eid % 32))) := by
  unfold imsic_irq_clear_pending_internal imsic_write_be imsic_write
  by_cases hbe : dev.config.big_endian <;> simp [hbe]

theorem imsic_set_eip_word_frame (d : imsic_data) (mi v : Nat) :
    (imsic_set_eip_word d mi v).eie_mask0 = d.eie_mask0 ∧
    (imsic_set_eip_word d mi v).eie_mask1 = d.eie_mask1 ∧
    (imsic_set_eip_word d mi v).eithreshold = d.eithreshold ∧
    (imsic_set_eip_word d mi v).delivery_mode = d.delivery_mode ∧
    (imsic_set_eip_word d mi v).total_interrupts = d.total_interrupts ∧
    (imsic_set_eip_word d mi v).msi_interrupts = d.msi_interrupts ∧
    (imsic_set_eip_word d mi v).id_interrupts = d.id_interrupts ∧
    (imsic_set_eip_word d mi v).virtual_interrupts = d.virtual_interrupts ∧
    (imsic_set_eip_word d mi v).threshold_rejected = d.threshold_rejected := by
  unfold imsic_set_eip_word
  by_cases h : mi = 0 <;> simp [h]

theorem imsic_eip_word_set_same (d : imsic_data) (mi v : Nat) (hmi : mi ≤ 1) :
    imsic_eip_word (imsic_set_eip_word d mi v) mi = v := by
  unfold imsic_eip_word imsic_set_eip_word
  interval_cases mi <;> simp_all

/-- After the tail of dispatch_one: the handler flag is passed through,
total_interrupts is incremented, the mode counters keep their values,
threshold_rejected gains 1 exactly when eid is below the threshold, and
the pending bit of eid is clear. -/
theorem imsic_handle_finish_spec (dev : ImsicDev) (inv : Bool) (eid : Nat)
    (h63 : eid ≤ 63) :
    (imsic_handle_finish (dev, inv) eid).2 = inv ∧
    (imsic_handle_finish (dev, inv) eid).1.data.total_interrupts =
      dev.data.total_interrupts + 1 ∧
    (imsic_handle_finish (dev, inv) eid).1.data.msi_interrupts =
      dev.data.msi_interrupts ∧
    (imsic_handle_finish (dev, inv) eid).1.data.id_interrupts =
      dev.data.id_interrupts ∧
    (imsic_handle_finish (dev, inv) eid).1.data.virtual_interrupts =
      dev.data.virtual_interrupts ∧
    (imsic_handle_finish (dev, inv) eid).1.data.threshold_rejected =
      dev.data.threshold_rejected +
        (if eid < dev.data.eithreshold then 1 else 0) ∧
    imsic_eip_word (imsic_handle_finish (dev, inv) eid).1.data (eid / 32) &&&
      BIT (eid % 32) = 0 := by
  have hm32 : eid % 32 < 32 := Nat.mod_lt _ (by norm_num)
  have hbit : ∀ x : Nat, (x &&& (mask32 ^^^ BIT (eid % 32))) &&& BIT (eid % 32) = 0 :=
    fun x => and_BIT_eq_zero_of_testBit_false _ _
      (by rw [testBit_and_not_BIT]; simp [hm32])
  by_cases h0 : eid / 32 = 0 <;> by_cases hth : eid < dev.data.eithreshold <;>
    simp [imsic_handle_finish, riscv_imsic_irq_clear_pending, h63,
      imsic_irq_clear_pending_internal_data, imsic_set_eip_word, imsic_eip_word,
      riscv_imsic_get_threshold, h0, hth, hbit]

/-- C1: for every EID <= 63 that is enabled and whose delivery mode is
MSI, ID, or Virtual, dispatch_one(eid) invokes the registered handler,
increments the mode-category counter, and clears the pending bit; the
threshold is consulted only afterwards and never gates the handler:
threshold_rejected is incremented exactly when eid is below the current
threshold, and is unchanged for an EID at or above it. -/
theorem C1_dispatch_one_nongating (env : IsrEnv) (dev : ImsicDev) (eid : Nat)
    (h63 : eid ≤ 63)
    (hen : imsic_eie_word dev.data (eid / 32) &&& BIT (eid % 32) ≠ 0)
    (hmode : dev.data.delivery_mode = IMSIC_EIDELIVERY_MODE_MSI ∨
      dev.data.delivery_mode = IMSIC_EIDELIVERY_MODE_ID ∨
      dev.data.delivery_mode = IMSIC_EIDELIVERY_MODE_VIRTUAL)
    (hnum : eid < env.num_irqs)
    (hreg : env.isr_registered eid = true) :
    (imsic_handle_single_interrupt env dev eid).2 = true ∧
    (dev.data.delivery_mode = IMSIC_EIDELIVERY_MODE_MSI →
      (imsic_handle_single_interrupt env dev eid).1.data.msi_interrupts =
        dev.data.msi_interrupts + 1) ∧
    (dev.data.delivery_mode = IMSIC_EIDELIVERY_MODE_ID →
      (imsic_handle_single_interrupt env dev eid).1.data.id_interrupts =
        dev.data.id_interrupts + 1) ∧
    (dev.data.delivery_mode = IMSIC_EIDELIVERY_MODE_VIRTUAL →
      (imsic_handle_single_interrupt env dev eid).1.data.virtual_interrupts =
        dev.data.virtual_interrupts + 1) ∧
    imsic_eip_word (imsic_handle_single_interrupt env dev eid).1.data (eid / 32) &&&
      BIT (eid % 32) = 0 ∧
    (imsic_handle_single_interrupt env dev eid).1.data.threshold_rejected =
      dev.data.threshold_rejected +
        (if eid < dev.data.eithreshold then 1 else 0) ∧
    (eid ≥ dev.data.eithreshold →
      (imsic_handle_single_interrupt env dev eid).1.data.threshold_rejected =
        dev.data.threshold_rejected) := by
  have h1 : riscv_imsic_irq_is_enabled dev eid = 1 := by
    unfold riscv_imsic_irq_is_enabled
    rw [if_neg (by omega), if_pos hen]
  have hnotle : ¬ riscv_imsic_irq_is_enabled dev eid ≤ 0 := by
    rw [h1]
    norm_num
  rcases hmode with hm | hm | hm
  · have hred : imsic_handle_single_interrupt env dev eid =
        imsic_handle_finish
          ({dev with data :=
            {dev.data with msi_interrupts := dev.data.msi_interrupts + 1}}, true) eid := by
      unfold imsic_handle_single_interrupt riscv_imsic_get_delivery_mode
      rw [if_neg hnotle]
      simp only [hm, IMSIC_EIDELIVERY_MODE_MSI]
      simp [hnum, hreg]
    have hspec := imsic_handle_finish_spec
      {dev with data := {dev.data with msi_interrupts := dev.data.msi_interrupts + 1}}
      true eid h63
    rw [hred]
    refine ⟨hspec.1, fun _ => hspec.2.2.1, fun hx => ?_, fun hx => ?_,
      hspec.2.2.2.2.2.2, hspec.2.2.2.2.2.1, fun hge => ?_⟩
    · rw [hm] at hx
      exact absurd hx (by decide)
    · rw [hm] at hx
      exact absurd hx (by decide)
    · rw [hspec.2.2.2.2.2.1, if_neg (Nat.not_lt.mpr hge)]
      exact rfl
  · have hred : imsic_handle_single_interrupt env dev eid =
        imsic_handle_finish
          ({dev with data :=
            {dev.data with id_interrupts := dev.data.id_interrupts + 1}}, true) eid := by
      unfold imsic_handle_single_interrupt riscv_imsic_get_delivery_mode
      rw [if_neg hnotle]
      simp only [hm, IMSIC_EIDELIVERY_MODE_ID]
      simp [hnum, hreg]
    have hspec := imsic_handle_finish_spec
      {dev with data := {dev.data with id_interrupts := dev.data.id_interrupts + 1}}
      true eid h63
    rw [hred]
    refine ⟨hspec.1, fun hx => ?_, fun _ => hspec.2.2.2.1, fun hx => ?_,
      hspec.2.2.2.2.2.2, hspec.2.2.2.2.2.1, fun hge => ?_⟩
    · rw [hm] at hx
      exact absurd hx (by decide)
    · rw [hm] at hx
      exact absurd hx (by decide)
    · rw [hspec.2.2.2.2.2.1, if_neg (Nat.not_lt.mpr hge)]
      exact rfl
  · have hred : imsic_handle_single_interrupt env dev eid =
        imsic_handle_finish
          ({dev with data :=
            {dev.data with virtual_interrupts := dev.data.virtual_interrupts + 1}},
            true) eid := by
      unfold imsic_handle_single_interrupt riscv_imsic_get_delivery_mode
      rw [if_neg hnotle]
      simp only [hm, IMSIC_EIDELIVERY_MODE_VIRTUAL]
      simp [hnum, hreg]
    have hspec := imsic_handle_finish_spec
      {dev with data :=
        {dev.data with virtual_interrupts := dev.data.virtual_interrupts + 1}}
      true eid h63
    rw [hred]
    refine ⟨hspec.1, fun hx => ?_, fun hx => ?_, fun _ => hspec.2.2.2.2.1,
      hspec.2.2.2.2.2.2, hspec.2.2.2.2.2.1, fun hge => ?_⟩
    · rw [hm] at hx
      exact absurd hx (by decide)
    · rw [hm] at hx
      exact absurd hx (by decide)
    · rw [hspec.2.2.2.2.2.1, if_neg (Nat.not_lt.mpr hge)]
      exact rfl

/-- A concrete ISR environment: 64 IRQ slots, every entry registered. -/
def isrEnv0 : IsrEnv :=
  { num_irqs := 64
    isr_registered := fun _ => true }

/-- A concrete IMSIC device in MSI delivery mode with threshold 2 and
EIDs 1 and 5 enabled and pending. -/
def imsicDevTh : ImsicDev :=
  {imsicDev0 with data := {imsicDev0.data with
    eie_mask0 := 0x22
    eip_pending0 := 0x22
    eithreshold := 2}}

/-- Witness for C1: dispatching enabled EID 1 (below the threshold 2)
invokes the handler, bumps the MSI counter, clears the pending bit and
bumps threshold_rejected; dispatching enabled EID 5 (at/above threshold)
leaves threshold_rejected unchanged. -/
theorem C1_witness :
    (imsic_handle_single_interrupt isrEnv0 imsicDevTh 1).2 = true ∧
    (imsic_handle_single_interrupt isrEnv0 imsicDevTh 1).1.data.msi_interrupts =
      imsicDevTh.data.msi_interrupts + 1 ∧
    imsic_eip_word (imsic_handle_single_interrupt isrEnv0 imsicDevTh 1).1.data 0 &&&
      BIT 1 = 0 ∧
    (imsic_handle_single_interrupt isrEnv0 imsicDevTh 1).1.data.threshold_rejected =
      imsicDevTh.data.threshold_rejected + 1 ∧
    (imsic_handle_single_interrupt isrEnv0 imsicDevTh 5).1.data.threshold_rejected =
      imsicDevTh.data.threshold_rejected :=
  ⟨(C1_dispatch_one_nongating isrEnv0 imsicDevTh 1 (by decide) (by decide)
      (Or.inl rfl) (by decide) rfl).1,
   (C1_dispatch_one_nongating isrEnv0 imsicDevTh 1 (by decide) (by decide)
      (Or.inl rfl) (by decide) rfl).2.1 rfl,
   (C1_dispatch_one_nongating isrEnv0 imsicDevTh 1 (by decide) (by decide)
      (Or.inl rfl) (by decide) rfl).2.2.2.2.1,
   (C1_dispatch_one_nongating isrEnv0 imsicDevTh 1 (by decide) (by decide)
      (Or.inl rfl) (by decide) rfl).2.2.2.2.2.1,
   (C1_dispatch_one_nongating isrEnv0 imsicDevTh 5 (by decide) (by decide)
      (Or.inl rfl) (by decide) rfl).2.2.2.2.2.2 (by decide)⟩

/-- The manager state aia_init produces when both engines are present. -/
def aiaBoth : aia_data :=
  {aia_data_zero with
    aplic_present := true
    imsic_present := true
    msi_mode_supported := true
    direct_mode_supported := true
    msi_mode_enabled := true
    max_harts := 4
    max_guests := 1
    initialized := true}

/-- The manager state aia_init produces with an APLIC only. -/
def aiaDirectOnly : aia_data :=
  {aia_data_zero with
    aplic_present := true
    imsic_present := false
    msi_mode_supported := false
    direct_mode_supported := true
    msi_mode_enabled := false
    max_harts := 4
    max_guests := 1
    initialized := true}

/-- The manager state aia_init produces with an IMSIC only. -/
def aiaMsiOnly : aia_data :=
  {aia_data_zero with
    aplic_present := false
    imsic_present := true
    msi_mode_supported := true
    direct_mode_supported := false
    msi_mode_enabled := true
    max_harts := 4
    max_guests := 1
    initialized := true}

/-- C4: AIA bring-up computes its capabilities exactly from which engines
were discovered: both engines give msi_supported, direct_supported and
msi_enabled all true; APLIC only gives direct_supported true and the MSI
flags false; IMSIC only gives the MSI flags true and direct_supported
false, and in that configuration enable_irq routes to the IMSIC and
succeeds; with neither engine initialization fails with -ENODEV; and
msi_mode_enabled is never changed by any runtime operation (enable,
disable, reset_stats, set_debug_mode). -/
theorem C4_aia_bringup (irq : Nat) (imdev : ImsicDev) (sys : AiaSys) (enable : Bool) :
    aia_init true true = Except.ok aiaBoth ∧
    riscv_aia_get_capabilities aiaBoth =
      { msi_supported := true
        direct_supported := true
        msi_enabled := true
        max_harts := 4
        max_guests := 1 } ∧
    aia_init true false = Except.ok aiaDirectOnly ∧
    riscv_aia_get_capabilities aiaDirectOnly =
      { msi_supported := false
        direct_supported := true
        msi_enabled := false
        max_harts := 4
        max_guests := 1 } ∧
    aia_init false true = Except.ok aiaMsiOnly ∧
    riscv_aia_get_capabilities aiaMsiOnly =
      { msi_supported := true
        direct_supported := false
        msi_enabled := true
        max_harts := 4
        max_guests := 1 } ∧
    aia_init false false = Except.error (-ENODEV) ∧
    (aia_irq_enable ⟨aiaMsiOnly, none, some imdev⟩ irq).2.1 = 0 ∧
    (aia_irq_enable ⟨aiaMsiOnly, none, some imdev⟩ irq).2.2 = AiaRoute.toImsic ∧
    (aia_irq_enable sys irq).1.aia.msi_mode_enabled = sys.aia.msi_mode_enabled ∧
    (aia_irq_disable sys irq).1.aia.msi_mode_enabled = sys.aia.msi_mode_enabled ∧
    (riscv_aia_reset_stats sys.aia).msi_mode_enabled = sys.aia.msi_mode_enabled ∧
    (riscv_aia_set_debug_mode sys.aia enable).msi_mode_enabled =
      sys.aia.msi_mode_enabled := by
  refine ⟨rfl, rfl, rfl, rfl, rfl, rfl, rfl, rfl, rfl, ?_, ?_, rfl, rfl⟩
  · rcases sys with ⟨aia, aplic, imsic⟩
    cases imsic <;> cases aplic <;>
      by_cases h : aia.msi_mode_enabled = true <;>
        simp [aia_irq_enable, aia_update_stats, h]
  · rcases sys with ⟨aia, aplic, imsic⟩
    cases imsic <;> cases aplic <;>
      by_cases h : aia.msi_mode_enabled = true <;>
        simp [aia_irq_disable, h]
